import Mathlib

/-!
AGDK tunnel sample: text renderer state and renderer debug checkpoints.

Shallow embedding of

* agdk/agdktunnel/app/src/main/cpp/text_renderer.hpp (class TextRenderer: the colour
  and matrix setters written inline in the header, and the two measuring wrappers),
* agdk/common/simple_renderer/renderer_debug.h (the checkpoint macros and the NDEBUG
  switch),

followed by the properties proved about them.
-/

namespace AgdkTunnel

/-! ## Scalars -/

/-- The C++ type named float, an IEEE-754 binary32 value, represented by its 32-bit pattern
(sign bit 31, exponent bits 30..23, fraction bits 22..0). The setters of the header
only copy such values. -/
abbrev float := Nat

/-- The literal 1.0f -/
def f1 : float := 0x3F800000

/-- The literal 0.0f -/
def f0 : float := 0x00000000

/-! ## Binary32 arithmetic

Addition and multiplication of binary32 values in the default rounding mode (round to
nearest, ties to even), on bit patterns. Every NaN result is the quiet NaN 0x7FC00000. -/

/-- The sign bit of a binary32 pattern -/
def f32_sign (x : float) : Nat := x / 2 ^ 31 % 2

/-- The biased exponent field of a binary32 pattern -/
def f32_exp (x : float) : Nat := x / 2 ^ 23 % 256

/-- The fraction field of a binary32 pattern -/
def f32_frac (x : float) : Nat := x % 2 ^ 23

/-- Not a number: exponent field all ones, fraction not zero -/
def f32_isNaN (x : float) : Bool := f32_exp x == 255 && f32_frac x != 0

/-- Plus or minus infinity: exponent field all ones, fraction zero -/
def f32_isInf (x : float) : Bool := f32_exp x == 255 && f32_frac x == 0

/-- Plus or minus zero -/
def f32_isZero (x : float) : Bool := f32_exp x == 0 && f32_frac x == 0

/-- A positive number: sign bit clear, not zero, and neither infinity nor NaN -/
def f32_isPositive (x : float) : Bool :=
  f32_sign x == 0 && f32_exp x != 255 && !f32_isZero x

/-- The integer significand of a finite value: the value is
(-1)^f32_sign * f32_sig * 2^f32_scale -/
def f32_sig (x : float) : Nat :=
  if f32_exp x = 0 then f32_frac x else 2 ^ 23 + f32_frac x

/-- The power of two that scales the integer significand of a finite value -/
def f32_scale (x : float) : Int :=
  if f32_exp x = 0 then -149 else (f32_exp x : Int) - 150

/-- The quiet NaN produced by invalid operations -/
def f32_qNaN : float := 0x7FC00000

/-- Infinity of the given sign -/
def f32_inf (sign : Nat) : float := sign * 2 ^ 31 + 0x7F800000

/-- Zero of the given sign -/
def f32_zero (sign : Nat) : float := sign * 2 ^ 31

/-- Number of binary digits of n, found by halving at most fuel times -/
def bitLength : Nat → Nat → Nat
  | 0, _ => 0
  | fuel + 1, n => if n = 0 then 0 else bitLength fuel (n / 2) + 1

/-- The binary32 value nearest to (-1)^sign * sig * 2^e, ties to even; overflow gives
infinity, and results below the normal range are subnormal. -/
def f32_round (sign sig : Nat) (e : Int) : float :=
  if sig = 0 then f32_zero sign else
  let n : Int := bitLength sig sig
  let q : Int := max (e + n - 24) (-149)
  let m : Nat :=
    if q ≤ e then sig * 2 ^ (e - q).toNat
    else
      let sh := (q - e).toNat
      let t := sig / 2 ^ sh
      let r := sig % 2 ^ sh
      let half := 2 ^ (sh - 1)
      if half < r ∨ (r = half ∧ t % 2 = 1) then t + 1 else t
  let m2 : Nat := if m = 2 ^ 24 then 2 ^ 23 else m
  let q2 : Int := if m = 2 ^ 24 then q + 1 else q
  if m2 < 2 ^ 23 then sign * 2 ^ 31 + m2
  else if 255 ≤ q2 + 150 then f32_inf sign
  else sign * 2 ^ 31 + (q2 + 150).toNat * 2 ^ 23 + (m2 - 2 ^ 23)

/-- The binary32 product a * b -/
def f32_mul (a b : float) : float :=
  if f32_isNaN a || f32_isNaN b then f32_qNaN
  else
    let s := (f32_sign a + f32_sign b) % 2
    if f32_isInf a || f32_isInf b then
      if f32_isZero a || f32_isZero b then f32_qNaN else f32_inf s
    else f32_round s (f32_sig a * f32_sig b) (f32_scale a + f32_scale b)

/-- The binary32 sum a + b -/
def f32_add (a b : float) : float :=
  if f32_isNaN a || f32_isNaN b then f32_qNaN
  else if f32_isInf a then
    if f32_isInf b && f32_sign a != f32_sign b then f32_qNaN else f32_inf (f32_sign a)
  else if f32_isInf b then f32_inf (f32_sign b)
  else
    let e := min (f32_scale a) (f32_scale b)
    let ma : Int := f32_sig a * 2 ^ (f32_scale a - e).toNat
    let mb : Int := f32_sig b * 2 ^ (f32_scale b - e).toNat
    let v : Int := (if f32_sign a = 1 then -ma else ma) + (if f32_sign b = 1 then -mb else mb)
    if v = 0 then f32_zero (if f32_sign a = 1 ∧ f32_sign b = 1 then 1 else 0)
    else f32_round (if v < 0 then 1 else 0) v.natAbs e

/-! ## glm::mat4 -/

/-- The glm 4x4 float matrix: four columns of four floats; entry m c r is column c, row r. -/
abbrev mat4 := Fin 4 → Fin 4 → float

/-- The glm constructor mat4(s) from one scalar: s on the diagonal, 0.0f elsewhere. -/
def glm_mat4 (s : float) : mat4 :=
  fun c r => if c = r then s else f0

/-- The 4x4 identity matrix written out: 1.0f on the diagonal, 0.0f elsewhere. -/
def mat4_identity : mat4 :=
  ![![f1, f0, f0, f0],
    ![f0, f1, f0, f0],
    ![f0, f0, f1, f0],
    ![f0, f0, f0, f1]]

/-! ## Glyph metrics -/

/-- Modelled from the spec: the GlyphMesh record of section 3 (the glyph geometry type
SimpleGeom of simplegeom.hpp is not among the sources): an opaque drawable handle,
the advance width at scale 1.0 and the bounding height. -/
structure GlyphMesh where
  handle : Nat
  advance : float
  height : float

/-- Modelled from the spec: the Glyph Catalog of sections 2 and 4.2, a mapping from
the 128 character codes to glyph meshes, every slot populated, together with the
fixed line height that section 4.3 reads from the catalog. -/
structure GlyphCatalog where
  glyph : Fin 128 → GlyphMesh
  lineHeight : float

/-- Modelled from the spec: the advance of a character code as section 4.3 uses it, the
catalog entry for codes 0..127 and the zero advance of the placeholder for any
other code. -/
def glyphAdvance (cat : GlyphCatalog) (c : Nat) : float :=
  if h : c < 128 then (cat.glyph ⟨c, h⟩).advance else f0

/-! ## class TextRenderer -/

/-- The static member CHAR_CODES = 128 -/
def TextRenderer.CHAR_CODES : Nat := 128

/-- The data members of TextRenderer, in declaration order. Pointers (the CHAR_CODES glyph
geometry pointers and the shared uniform buffer) are represented by their address. -/
structure TextRenderer where
  mCharGeom : Fin TextRenderer.CHAR_CODES → Nat
  mFontScale : float
  mColor : Fin 4 → float
  mMatrix : mat4
  mUniformBuffer : Nat

namespace TextRenderer

/-- The overload SetColor(float r, float g, float b):
mColor[0] = r, mColor[1] = g, mColor[2] = b; -/
def SetColor (self : TextRenderer) (r g b : float) : TextRenderer :=
  let self := { self with mColor := Function.update self.mColor 0 r }
  let self := { self with mColor := Function.update self.mColor 1 g }
  let self := { self with mColor := Function.update self.mColor 2 b }
  self

/-- The overload SetColor(const float *c):
mColor[0] = c[0], mColor[1] = c[1], mColor[2] = c[2];
The array behind the pointer is given by its elements, an array of its own that does
not overlap the renderer; reading past its end is undefined behaviour in C++ and
yields none here. -/
def SetColorPtr (self : TextRenderer) (c : List float) : Option TextRenderer := do
  let c0 ← c.get? 0
  let self := { self with mColor := Function.update self.mColor 0 c0 }
  let c1 ← c.get? 1
  let self := { self with mColor := Function.update self.mColor 1 c1 }
  let c2 ← c.get? 2
  let self := { self with mColor := Function.update self.mColor 2 c2 }
  pure self

/-- The member ResetColor(): SetColor(1.0f, 1.0f, 1.0f); -/
def ResetColor (self : TextRenderer) : TextRenderer :=
  self.SetColor f1 f1 f1

/-- Modelled from the spec: the body of TextRenderer::SetMatrix(glm::mat4 mat), which the
header only declares (text_renderer.cpp is not among the sources). Section 3 of the spec
lists the active transform matrix among the renderer state that is mutated only via
explicit setters, and section 4.4 names SetMatrix as that setter: it stores its argument
as the active transform matrix and touches nothing else. -/
def SetMatrix (self : TextRenderer) (mat : mat4) : TextRenderer :=
  { self with mMatrix := mat }

/-- The member ResetMatrix(): SetMatrix(glm::mat4(1.0f)); -/
def ResetMatrix (self : TextRenderer) : TextRenderer :=
  self.SetMatrix (glm_mat4 f1)

/-- The shape of the static member
MeasureText(const char *str, float fontScale, float *outWidth, float *outHeight).
The string is the list of its character codes before the terminating NUL. Each of
the two Bool arguments says whether the matching out-pointer is non-NULL, and each
component of the result is the float stored through that pointer (none: nothing was
stored). -/
abbrev MeasureTextFn := List Nat → float → Bool → Bool → Option float × Option float

/-- The static member MeasureTextWidth(str, fontScale):
float w; TextRenderer::MeasureText(str, fontScale, &w, NULL); return w;
The local w starts uninitialised (none); the result is the content of w on return. -/
def MeasureTextWidth (MeasureText : MeasureTextFn) (str : List Nat) (fontScale : float) :
    Option float :=
  let w : Option float := none
  let w := match (MeasureText str fontScale true false).1 with
    | some v => some v
    | none => w
  w

/-- The static member MeasureTextHeight(str, fontScale):
float h; TextRenderer::MeasureText(str, fontScale, NULL, &h); return h;
The local h starts uninitialised (none); the result is the content of h on return. -/
def MeasureTextHeight (MeasureText : MeasureTextFn) (str : List Nat) (fontScale : float) :
    Option float :=
  let h : Option float := none
  let h := match (MeasureText str fontScale false true).2 with
    | some v => some v
    | none => h
  h

/-- The pen of section 4.3 walking the string left to right from the given start,
moved by the scale-1.0 advance of each character. -/
def accumulateAdvance (cat : GlyphCatalog) : List Nat → float → float
  | [], pen => pen
  | c :: rest, pen => accumulateAdvance cat rest (f32_add pen (glyphAdvance cat c))

/-- Modelled from the spec: the body of the static member TextRenderer::MeasureText,
which the header only declares (text_renderer.cpp is not among the sources). Section
4.3: the width is the sum of the characters' glyph advances at scale 1.0, accumulated
left to right, times fontScale, with codes outside the 128-code range counted as the
zero-advance placeholder; the height is the catalog's fixed line height times
fontScale. It reads only the glyph metrics, which are therefore an argument. Each
result is stored through its out-pointer when that pointer is not NULL. -/
def MeasureText (cat : GlyphCatalog) : MeasureTextFn :=
  fun str fontScale outWidth outHeight =>
    let width := f32_mul (accumulateAdvance cat str f0) fontScale
    let height := f32_mul cat.lineHeight fontScale
    (if outWidth then some width else none, if outHeight then some height else none)

end TextRenderer

/-! ## renderer_debug.h -/

/-- One #define line: the macro name, its parameter list (none for an object-like
macro) and its replacement list, as preprocessing tokens. -/
structure MacroDef where
  name : String
  params : Option (List String)
  body : List String
  deriving DecidableEq

/-- The #define lines that renderer_debug.h leaves in effect, in file order, as a
function of whether NDEBUG is defined when the header is read. -/
def renderer_debug_h (NDEBUG : Bool) : List MacroDef :=
  [ ⟨"RENDERER_ERROR", none, ["ALOGE"]⟩,
    ⟨"RENDERER_LOG", none, ["ALOGI"]⟩,
    ⟨"RENDERER_ASSERT", none, ["MY_ASSERT"]⟩ ] ++
  (if NDEBUG then
    [ ⟨"RENDERER_CHECK_GLES", some ["a"], []⟩,
      ⟨"RENDERER_CHECK_VK", some ["b"], []⟩ ]
  else
    [ ⟨"RENDERER_CHECK_GLES", some ["a"], ["RendererCheckGLES", "(", "a", ")"]⟩,
      ⟨"RENDERER_CHECK_VK", some ["a", "b"], ["RendererCheckVk", "(", "a", ",", "b", ")"]⟩ ])

/-- The tokens of a parenthesised argument list: ( arg , arg , ... ) -/
def callTokens (args : List (List String)) : List String :=
  ["("] ++ List.intercalate [","] args ++ [")"]

/-- Replace each parameter name in a replacement list by the tokens of its argument. -/
def substitute (params : List String) (args : List (List String)) (body : List String) :
    List String :=
  body.flatMap fun t =>
    match params.indexOf? t with
    | some i => args.getD i []
    | none => [t]

/-- Preprocessing of the tokens name ( args ) under a list of definitions (C11 6.10.3).
A name that is not a macro is left as it is; an object-like macro is replaced by its
body and the argument list follows it; a function-like macro needs as many arguments
as it has parameters (an invocation with empty parentheses of a macro without
parameters has none) and is replaced by its body with the arguments put in, otherwise
the invocation is ill-formed and the translation unit is rejected (none). The
arguments are taken as already expanded, and the result is not rescanned: no name
in the replacement lists of renderer_debug.h is defined by it. -/
def expandInvocation (defs : List MacroDef) (name : String) (args : List (List String)) :
    Option (List String) :=
  match defs.find? (fun d => d.name == name) with
  | none => some (name :: callTokens args)
  | some d =>
    match d.params with
    | none => some (d.body ++ callTokens args)
    | some ps =>
      if ps.length = args.length ∨ (ps = [] ∧ args = [[]]) then
        some (substitute ps args d.body)
      else
        none

/-! ## Frame condition and sample data -/

/-- Everything in the renderer outside the three channels mColor[0], mColor[1],
mColor[2] is the same in both states. -/
def SameOutsideRGB (before after : TextRenderer) : Prop :=
  after.mColor 3 = before.mColor 3 ∧ after.mFontScale = before.mFontScale ∧
  after.mMatrix = before.mMatrix ∧ after.mCharGeom = before.mCharGeom ∧
  after.mUniformBuffer = before.mUniformBuffer

/-- The literal 0.5f -/
def fHalf : float := 0x3F000000

/-- A renderer drawing in half-transparent red: mColor = (1.0, 0.0, 0.0, 0.5), font
scale 1.0, identity matrix. -/
def halfTransparentRed : TextRenderer where
  mCharGeom := fun _ => 0
  mFontScale := f1
  mColor := ![f1, f0, f0, fHalf]
  mMatrix := glm_mat4 f1
  mUniformBuffer := 0

/-- A renderer drawing in opaque black: mColor = (0.0, 0.0, 0.0, 1.0), font scale 1.0,
matrix with 0.5 on the diagonal. -/
def opaqueBlack : TextRenderer where
  mCharGeom := fun _ => 0
  mFontScale := f1
  mColor := ![f0, f0, f0, f1]
  mMatrix := glm_mat4 fHalf
  mUniformBuffer := 0

/-- A catalog in which every printable character (codes 32..126) advances by 0.5 and
every other code is a zero-advance placeholder; line height 1.0. -/
def monoCatalog : GlyphCatalog where
  glyph := fun c => ⟨c.val, if 32 ≤ c.val ∧ c.val ≤ 126 then fHalf else f0, f1⟩
  lineHeight := f1

/-! ## Properties -/

section Lemmas

theorem mColor_update3 (m : Fin 4 → float) (r g b : float) :
    Function.update (Function.update (Function.update m 0 r) 1 g) 2 b
      = ![r, g, b, m 3] := by
  funext i
  fin_cases i <;> simp [Function.update]

theorem f32_round_zero (sign : Nat) (e : Int) : f32_round sign 0 e = f32_zero sign := by
  simp [f32_round]

theorem f32_mul_zero_left (s : float) (h : f32_isPositive s = true) : f32_mul f0 s = f0 := by
  have hexp : f32_exp s ≠ 255 := by
    simp [f32_isPositive] at h
    exact h.1.2
  have hsign : f32_sign s = 0 := by
    simp [f32_isPositive] at h
    exact h.1.1
  have h0 : f32_isNaN f0 = false := by decide
  have h1 : f32_isInf f0 = false := by decide
  have h2 : f32_isNaN s = false := by simp [f32_isNaN, hexp]
  have h3 : f32_isInf s = false := by simp [f32_isInf, hexp]
  have h4 : f32_sig f0 = 0 := by decide
  have h5 : f32_sign f0 = 0 := by decide
  unfold f32_mul
  rw [h0, h1, h2, h3, h4, h5, hsign]
  simp only [Bool.or_self, Bool.false_eq_true, if_false, Nat.zero_mul, f32_round_zero]
  rfl

theorem accumulateAdvance_eq_foldl (cat : GlyphCatalog) (str : List Nat) (pen : float) :
    TextRenderer.accumulateAdvance cat str pen
      = List.foldl f32_add pen (str.map (glyphAdvance cat)) := by
  induction str generalizing pen with
  | nil => rfl
  | cons c rest ih => simp [TextRenderer.accumulateAdvance, ih]

end Lemmas

open TextRenderer

/-! ### Colour setters -/

/-- C4: ResetColor is idempotent: applying it twice gives the same renderer state as
applying it once, in all four colour channels and in every other field. -/
theorem ResetColor_idempotent (st : TextRenderer) :
    st.ResetColor.ResetColor = st.ResetColor := by
  simp only [ResetColor, SetColor, mColor_update3]
  congr 1

/-- C9: SetColor(r, g, b), SetColor(c) for an array c of at least three
elements, and ResetColor() leave the alpha channel mColor[3], mFontScale, mMatrix, the
glyph table mCharGeom and the uniform-buffer reference as they were. -/
theorem SetColor_ResetColor_frame (st : TextRenderer) (r g b : float) (c : List float) :
    SameOutsideRGB st (st.SetColor r g b) ∧
    SameOutsideRGB st st.ResetColor ∧
    (3 ≤ c.length → ∃ st2, st.SetColorPtr c = some st2 ∧ SameOutsideRGB st st2) := by
  refine ⟨?_, ?_, ?_⟩
  · simp [SameOutsideRGB, SetColor, mColor_update3]
  · simp [SameOutsideRGB, ResetColor, SetColor, mColor_update3]
  · intro h
    match c, h with
    | c0 :: c1 :: c2 :: rest, _ =>
      refine ⟨st.SetColor c0 c1 c2, rfl, ?_⟩
      simp [SameOutsideRGB, SetColor, mColor_update3]

/-- Witness for C9 at the half-transparent red renderer and the colour green. -/
theorem SetColor_ResetColor_frame_witness :
    SameOutsideRGB halfTransparentRed (halfTransparentRed.SetColor f0 f1 f0) ∧
    SameOutsideRGB halfTransparentRed halfTransparentRed.ResetColor ∧
    3 ≤ [f0, f1, f0].length ∧
    ∃ st2, halfTransparentRed.SetColorPtr [f0, f1, f0] = some st2 ∧
      SameOutsideRGB halfTransparentRed st2 :=
  have h := SetColor_ResetColor_frame halfTransparentRed f0 f1 f0 [f0, f1, f0]
  ⟨h.1, h.2.1, by decide, h.2.2 (by decide)⟩

/-- C10: for an array arr with at least three elements, SetColor(arr) yields the same
renderer state as SetColor(arr[0], arr[1], arr[2]). -/
theorem SetColorPtr_eq_SetColor (st : TextRenderer) (arr : List float) (h : 3 ≤ arr.length) :
    st.SetColorPtr arr = some (st.SetColor arr[0] arr[1] arr[2]) := by
  match arr, h with
  | c0 :: c1 :: c2 :: rest, _ => rfl

/-- Witness for C10 at the opaque black renderer and a four-element array. -/
theorem SetColorPtr_eq_SetColor_witness :
    3 ≤ [f1, f0, fHalf, f0].length ∧
    opaqueBlack.SetColorPtr [f1, f0, fHalf, f0] = some (opaqueBlack.SetColor f1 f0 fHalf) :=
  ⟨by decide, SetColorPtr_eq_SetColor opaqueBlack [f1, f0, fHalf, f0] (by decide)⟩

/-- C2, as the code has it: after ResetColor() the three channels mColor[0..2] are 1.0
and the alpha channel mColor[3] is what it was before the call, so the colour is
(1.0, 1.0, 1.0, 1.0) exactly when the alpha was 1.0 before. -/
theorem ResetColor_color (st : TextRenderer) :
    st.ResetColor.mColor = ![f1, f1, f1, st.mColor 3] ∧
    (st.ResetColor.mColor = ![f1, f1, f1, f1] ↔ st.mColor 3 = f1) := by
  have h : st.ResetColor.mColor = ![f1, f1, f1, st.mColor 3] := by
    simp [ResetColor, SetColor, mColor_update3]
  refine ⟨h, ?_⟩
  rw [h]
  constructor
  · intro e
    have := congrFun e 3
    simpa using this
  · intro e
    rw [e]

/-- C2 fails as stated: the half-transparent red renderer still has alpha 0.5 after
ResetColor(), so its colour is not (1.0, 1.0, 1.0, 1.0). -/
theorem ResetColor_keeps_alpha_counterexample :
    halfTransparentRed.ResetColor.mColor 3 = fHalf ∧
    halfTransparentRed.ResetColor.mColor ≠ ![f1, f1, f1, f1] := by
  decide

/-- C3, as the code has it: after SetColor(r, g, b), and after SetColor(c) with the
three-element array c = [r, g, b], the stored colour is (r, g, b, a) where a is the
alpha stored before the call. -/
theorem SetColor_color (st : TextRenderer) (r g b : float) :
    (st.SetColor r g b).mColor = ![r, g, b, st.mColor 3] ∧
    ∃ st2, st.SetColorPtr [r, g, b] = some st2 ∧ st2.mColor = ![r, g, b, st.mColor 3] := by
  have h : (st.SetColor r g b).mColor = ![r, g, b, st.mColor 3] := by
    simp [SetColor, mColor_update3]
  exact ⟨h, st.SetColor r g b, rfl, h⟩

/-- C3 fails as stated: on the half-transparent red renderer both overloads, given
green, leave alpha 0.5, so the stored colour is not (0.0, 1.0, 0.0, 1.0). -/
theorem SetColor_keeps_alpha_counterexample :
    (halfTransparentRed.SetColor f0 f1 f0).mColor = ![f0, f1, f0, fHalf] ∧
    (halfTransparentRed.SetColor f0 f1 f0).mColor ≠ ![f0, f1, f0, f1] ∧
    (halfTransparentRed.SetColorPtr [f0, f1, f0]).map (fun s => List.ofFn s.mColor)
      = some [f0, f1, f0, fHalf] ∧
    (halfTransparentRed.SetColorPtr [f0, f1, f0]).map (fun s => List.ofFn s.mColor)
      ≠ some [f0, f1, f0, f1] := by
  decide

/-- C7, as the code has it: for a four-element array c, SetColor(c) stores c[0], c[1],
c[2] in the first three channels and keeps the alpha stored before the call; c[3] is
not read, so the result is the same whatever c[3] is. -/
theorem SetColorPtr_four (st : TextRenderer) (c0 c1 c2 c3 : float) :
    (∃ st2, st.SetColorPtr [c0, c1, c2, c3] = some st2 ∧
      st2.mColor = ![c0, c1, c2, st.mColor 3]) ∧
    ∀ a : float, st.SetColorPtr [c0, c1, c2, a] = st.SetColorPtr [c0, c1, c2, c3] := by
  refine ⟨⟨st.SetColor c0 c1 c2, rfl, ?_⟩, fun _ => rfl⟩
  simp [SetColor, mColor_update3]

/-- C7 fails as stated: on the opaque black renderer, SetColor(c) with
c = [1.0, 1.0, 1.0, 0.5] leaves alpha 1.0, not the supplied 0.5. -/
theorem SetColorPtr_ignores_alpha_counterexample :
    (opaqueBlack.SetColorPtr [f1, f1, f1, fHalf]).map (fun s => List.ofFn s.mColor)
      = some [f1, f1, f1, f1] ∧
    (opaqueBlack.SetColorPtr [f1, f1, f1, fHalf]).map (fun s => List.ofFn s.mColor)
      ≠ some [f1, f1, f1, fHalf] := by
  decide

/-! ### Matrix reset -/

/-- C6: ResetMatrix() has exactly the effect of SetMatrix(I) for the 4x4 identity I, so
after ResetMatrix() the active transform matrix is the identity, whatever it was
before. -/
theorem ResetMatrix_identity (st : TextRenderer) :
    st.ResetMatrix = st.SetMatrix mat4_identity ∧ st.ResetMatrix.mMatrix = mat4_identity := by
  have h : glm_mat4 f1 = mat4_identity := by
    funext c r
    fin_cases c <;> fin_cases r <;> rfl
  simp [ResetMatrix, SetMatrix, h]

/-! ### Measuring wrappers -/

/-- C1: for any MeasureText that stores, through each non-NULL out-pointer, the matching
component of its result measure(str, s), MeasureTextWidth(str, s) returns the width and
MeasureTextHeight(str, s) returns the height of that result, the same values a call of
MeasureText with both out-pointers stores; each wrapper returns just what its one call
of MeasureText stored. -/
theorem MeasureTextWidth_Height_project (MeasureText : MeasureTextFn)
    (measure : List Nat → float → float × float)
    (hMT : ∀ str s outWidth outHeight, MeasureText str s outWidth outHeight =
      (if outWidth then some (measure str s).1 else none,
       if outHeight then some (measure str s).2 else none))
    (str : List Nat) (s : float) :
    MeasureTextWidth MeasureText str s = some (measure str s).1 ∧
    MeasureTextHeight MeasureText str s = some (measure str s).2 ∧
    MeasureTextWidth MeasureText str s = (MeasureText str s true true).1 ∧
    MeasureTextHeight MeasureText str s = (MeasureText str s true true).2 ∧
    MeasureTextWidth MeasureText str s = (MeasureText str s true false).1 ∧
    MeasureTextHeight MeasureText str s = (MeasureText str s false true).2 := by
  simp [MeasureTextWidth, MeasureTextHeight, hMT]

set_option maxRecDepth 100000 in
/-- Witness for C1: the catalog-based MeasureText on the two-character string "Hi" at
scale 1.0, where both characters advance by 0.5 and the line height is 1.0. -/
theorem MeasureTextWidth_Height_project_witness :
    (∀ str s outWidth outHeight, MeasureText monoCatalog str s outWidth outHeight =
      (if outWidth then some (f32_mul (accumulateAdvance monoCatalog str f0) s) else none,
       if outHeight then some (f32_mul monoCatalog.lineHeight s) else none)) ∧
    MeasureTextWidth (MeasureText monoCatalog) [72, 105] f1 = some f1 ∧
    MeasureTextHeight (MeasureText monoCatalog) [72, 105] f1 = some f1 :=
  have hMT : ∀ str s outWidth outHeight, MeasureText monoCatalog str s outWidth outHeight =
      (if outWidth then some (f32_mul (accumulateAdvance monoCatalog str f0) s) else none,
       if outHeight then some (f32_mul monoCatalog.lineHeight s) else none) :=
    fun _ _ _ _ => rfl
  have h := MeasureTextWidth_Height_project (MeasureText monoCatalog)
    (fun str s => (f32_mul (accumulateAdvance monoCatalog str f0) s,
      f32_mul monoCatalog.lineHeight s)) hMT [72, 105] f1
  ⟨hMT, h.1.trans (by rfl), h.2.1.trans (by rfl)⟩

/-! ### Text metrics -/

/-- C8: for every string and every positive font scale (a float greater than zero and
below infinity), the width MeasureText stores is the sum of the scale-1.0 glyph
advances of the characters of the string, added left to right, multiplied by the
scale; the width of the empty string is 0. -/
theorem MeasureText_width (cat : GlyphCatalog) (str : List Nat) (scale : float)
    (hpos : f32_isPositive scale = true) (outHeight : Bool) :
    (MeasureText cat str scale true outHeight).1
      = some (f32_mul (List.foldl f32_add f0 (str.map (glyphAdvance cat))) scale) ∧
    (MeasureText cat [] scale true outHeight).1 = some f0 := by
  constructor
  · simp [MeasureText, accumulateAdvance_eq_foldl]
  · simp [MeasureText, accumulateAdvance, f32_mul_zero_left scale hpos]

set_option maxRecDepth 100000 in
/-- Witness for C8: the string "Hi" at scale 0.5 in the catalog where both characters
advance by 0.5: the width is (0.5 + 0.5) * 0.5 = 0.5. -/
theorem MeasureText_width_witness :
    f32_isPositive fHalf = true ∧
    (MeasureText monoCatalog [72, 105] fHalf true true).1 = some fHalf ∧
    (MeasureText monoCatalog [] fHalf true true).1 = some f0 :=
  have h := MeasureText_width monoCatalog [72, 105] fHalf (by decide) true
  ⟨by decide, h.1.trans (by rfl), h.2⟩

/-! ### Checkpoint macros -/

/-- C5: with checks enabled the invocations RENDERER_CHECK_GLES(label) and
RENDERER_CHECK_VK(result, label) expand to RendererCheckGLES(label) and
RendererCheckVk(result, label). With NDEBUG defined RENDERER_CHECK_GLES(label) expands
to no tokens, but RENDERER_CHECK_VK(result, label) does not expand to no tokens: the
NDEBUG definition of RENDERER_CHECK_VK has one parameter, so the two-argument
invocation is ill-formed, while an invocation with one argument expands to no
tokens. -/
theorem RENDERER_CHECK_expansion (result label : List String) :
    expandInvocation (renderer_debug_h false) "RENDERER_CHECK_GLES" [label]
      = some (["RendererCheckGLES", "("] ++ label ++ [")"]) ∧
    expandInvocation (renderer_debug_h false) "RENDERER_CHECK_VK" [result, label]
      = some (["RendererCheckVk", "("] ++ result ++ [","] ++ label ++ [")"]) ∧
    expandInvocation (renderer_debug_h true) "RENDERER_CHECK_GLES" [label] = some [] ∧
    expandInvocation (renderer_debug_h true) "RENDERER_CHECK_VK" [result, label] = none ∧
    expandInvocation (renderer_debug_h true) "RENDERER_CHECK_VK" [label] = some [] := by
  refine ⟨rfl, ?_, rfl, rfl, rfl⟩
  have h : expandInvocation (renderer_debug_h false) "RENDERER_CHECK_VK" [result, label]
      = some ("RendererCheckVk" :: "(" :: (result ++ "," :: (label ++ [")"]))) := rfl
  simp [h]

end AgdkTunnel
